import Mathlib

/-!
Verification of the ReactRPG codex generation subsystem
(`backend/codex/functions.py` and `backend/codex/models.py`).

Randomness is shallowly embedded by passing each random outcome in as an
argument: a `randint`/`randrange` draw becomes an explicit integer (or a
stream `ℕ → ℤ` of integers when a loop or recursion draws repeatedly),
constrained by the range hypotheses the Python generator guarantees.
-/

namespace ReactRPG

/-- Embeds a `Codex` model row.  The first block of fields is the stored
template (name, type, four base stats, paid flag, minimum level); the
trailing fields `level`, `rarity`, `rarity_text` are the attributes the
generation methods attach at runtime (Python sets them on the fetched
instance; here they carry defaults until generation overwrites them). -/
structure Entity where
  name : String := ""
  type : String := "Enemy"
  base_hp : ℤ := 5
  base_attack : ℤ := 5
  base_defense : ℤ := 5
  base_speed : ℤ := 5
  paid : Bool := false
  min_level : ℤ := 1
  level : ℤ := 1
  rarity : ℕ := 1
  rarity_text : String := ""
  deriving Repr, DecidableEq, Inhabited

/-- Failure outcomes surfaced by the data layer: `valueError` embeds the
Python `ValueError` that `randint` raises on an empty range, `notFound`
embeds the `NotFound` error kind the specification prescribes for an
empty candidate set. -/
inductive GenError where
  | valueError : GenError
  | notFound : GenError
  deriving Repr, DecidableEq

/-- Embeds the filter inside `CodexQuerySet.get_random`: the allowed paid
flags are `False` together with the caller's `paid` flag, and the rows kept
are those matching
`filter(type=codex_type, paid__in=allowed_content, min_level__lte=level)`. -/
def codex_query (db : List Entity) (codex_type : String) (paid : Bool)
    (level : ℤ) : List Entity :=
  let allowed_content : List Bool := if paid then [false, true] else [false]
  db.filter fun e =>
    e.type == codex_type && allowed_content.contains e.paid
      && decide (e.min_level ≤ level)

/-- Embeds `CodexQuerySet.get_random`: filter, `last = count - 1`,
`index = randint(0, last)`, return `query[index]`.  The draw is the `idx`
argument; `randint(0, last)` raises `ValueError` whenever `last < 0`,
i.e. whenever the filtered queryset is empty. -/
def get_random (db : List Entity) (codex_type : String) (paid : Bool)
    (level : ℤ) (idx : ℕ) : Except GenError Entity :=
  let query := codex_query db codex_type paid level
  if (query.length : ℤ) - 1 < 0 then Except.error GenError.valueError
  else Except.ok (query.getD idx default)

/-- Embeds `rarity_recursive(n, t=1)` from `functions.py`.  `rolls` is the
stream of `randint(1, 100)` outcomes; the head is this call's roll and the
tail feeds the recursive call.  `successroll = 100 - (n - 1) * 20`; the
call is terminal when `successroll ≥ 100` or `t = 5`, otherwise the roll
must reach `successroll` for the climb to continue. -/
def rarity_recursive (rolls : ℕ → ℤ) (n : ℤ) (t : ℕ) : ℕ :=
  if h : 100 ≤ 100 - (n - 1) * 20 ∨ t = 5 then t
  else if 100 - (n - 1) * 20 ≤ rolls 0 then
    rarity_recursive (fun i => rolls (i + 1)) (n - 1) (t + 1)
  else t
termination_by (n - 1).toNat
decreasing_by
  push_neg at h
  omega

/-- Number of recursive calls `rarity_recursive` performs on the same
inputs (0 when the call is immediately terminal). -/
def rarity_steps (rolls : ℕ → ℤ) (n : ℤ) (t : ℕ) : ℕ :=
  if h : 100 ≤ 100 - (n - 1) * 20 ∨ t = 5 then 0
  else if 100 - (n - 1) * 20 ≤ rolls 0 then
    rarity_steps (fun i => rolls (i + 1)) (n - 1) (t + 1) + 1
  else 0
termination_by (n - 1).toNat
decreasing_by
  push_neg at h
  omega

/-- Embeds `modi_min` of `modifier_multiplier`:
`round((1 + ((level - 1) / 5)) * 100)`, computed in exact arithmetic. -/
def modi_min (level : ℤ) : ℤ :=
  round ((1 + ((level : ℚ) - 1) / 5) * 100)

/-- Embeds `modi_max` of `modifier_multiplier`:
`round((1 + ((level - 1) / 5) + (rarity / 5)) * 100)`. -/
def modi_max (level rarity : ℤ) : ℤ :=
  round ((1 + ((level : ℚ) - 1) / 5 + (rarity : ℚ) / 5) * 100)

/-- Embeds `modifier_multiplier(level, rarity=1)`: the function draws
`m = randrange(modi_min, modi_max)` — the draw is passed in as `m`, with
`modi_min level ≤ m < modi_max level rarity` as the range hypothesis at
use sites — and returns `m / 100`. -/
def modifier_multiplier (m : ℤ) (level rarity : ℤ) : ℚ :=
  (m : ℚ) / 100

/-- Embeds `stat_modifier(stat, level, rarity=1)`:
`ceil(stat * modifier_multiplier(level, rarity))`, with `m` the
`randrange` draw made inside the multiplier. -/
def stat_modifier (m : ℤ) (stat level rarity : ℤ) : ℤ :=
  ⌈(stat : ℚ) * modifier_multiplier m level rarity⌉

/-- Embeds the `rarity_list` literal of `Codex.new_weapon`. -/
def rarity_list : List String :=
  ["Common", "Uncommon", "Rare", "Epic", "Mythic"]

/-- Embeds one iteration of the stat-modification loop body shared by
`new_weapon` and `new_enemy`: the four stats are updated in source order
hp, attack, speed, defense, consuming the four draws `d0`..`d3`. -/
def mod_pass (d0 d1 d2 d3 : ℤ) (level rarity : ℤ) (e : Entity) : Entity :=
  { e with
    base_hp := stat_modifier d0 e.base_hp level rarity
    base_attack := stat_modifier d1 e.base_attack level rarity
    base_speed := stat_modifier d2 e.base_speed level rarity
    base_defense := stat_modifier d3 e.base_defense level rarity }

/-- Embeds `count` iterations of the stat-modification loop; pass `k`
consumes draws `4k`..`4k+3` of the stream. -/
def mod_iter (draws : ℕ → ℤ) (level rarity : ℤ) : ℕ → Entity → Entity
  | 0, e => e
  | k + 1, e =>
      mod_iter (fun i => draws (i + 4)) level rarity k
        (mod_pass (draws 0) (draws 1) (draws 2) (draws 3) level rarity e)

/-- Specification-side helper: `n`-fold compounding application of
`stat_modifier` to a single stat, pass `k` consuming `draws k`. -/
def compound (draws : ℕ → ℤ) (level rarity : ℤ) : ℕ → ℤ → ℤ
  | 0, s => s
  | k + 1, s =>
      compound (fun i => draws (i + 1)) level rarity k
        (stat_modifier (draws 0) s level rarity)

/-- Embeds the level resolution of `Codex.new_weapon`: when the requested
`level > 1` the instance level is `randint(1, level)` (passed in as
`levelRoll`), otherwise it is 1. -/
def weapon_level (levelRoll level : ℤ) : ℤ :=
  if 1 < level then levelRoll else 1

/-- Embeds the rarity resolution of `Codex.new_weapon`: when the requested
`level > 1` the rarity is `rarity_recursive(weapon.level)`, otherwise 1. -/
def weapon_rarity (rarityRolls : ℕ → ℤ) (levelRoll level : ℤ) : ℕ :=
  if 1 < level then rarity_recursive rarityRolls (weapon_level levelRoll level) 1
  else 1

/-- Embeds `Codex.new_weapon` applied to the fetched `template`:
resolve level and rarity, set `rarity_text = rarity_list[rarity - 1]`,
then run the four-stat modification loop `rarity` times at the resolved
level and rarity.  `levelRoll` is the `randint(1, level)` outcome,
`rarityRolls` feeds `rarity_recursive`, `draws` is the stream of
`randrange` outcomes drawn inside `stat_modifier`. -/
def new_weapon (template : Entity) (level : ℤ) (levelRoll : ℤ)
    (rarityRolls : ℕ → ℤ) (draws : ℕ → ℤ) : Entity :=
  let lv := weapon_level levelRoll level
  let r := weapon_rarity rarityRolls levelRoll level
  mod_iter draws lv (r : ℤ) r
    { template with
      level := lv
      rarity := r
      rarity_text := rarity_list.getD (r - 1) "" }

/-- Embeds the level resolution of `Codex.new_enemy`. -/
def enemy_level (levelRoll level : ℤ) : ℤ :=
  if 1 < level then levelRoll else 1

/-- Embeds `Codex.new_enemy` applied to the fetched `template`: when the
requested `level > 1`, resolve the instance level and run the four-stat
loop `enemy.level - 1` times with the rarity argument at its default 1;
otherwise set level 1 and apply no modification. -/
def new_enemy (template : Entity) (level : ℤ) (levelRoll : ℤ)
    (draws : ℕ → ℤ) : Entity :=
  if 1 < level then
    let lv := enemy_level levelRoll level
    mod_iter draws lv 1 (lv - 1).toNat { template with level := lv }
  else
    { template with level := 1 }

/-- A concrete weapon template used as the evaluation point of witnesses
and counterexamples. -/
def sampleTemplate : Entity :=
  { name := "Sword", type := "Weapon" }

/-! ### Helper lemmas shared by several results -/

/-- In exact arithmetic the minimum modifier is the integer
`100 + 20 * (level - 1)`: the rounding in the source is exact. -/
theorem modi_min_eq (level : ℤ) : modi_min level = 100 + 20 * (level - 1) := by
  unfold modi_min
  have h : (1 + ((level : ℚ) - 1) / 5) * 100
      = ((100 + 20 * (level - 1) : ℤ) : ℚ) := by
    push_cast; ring
  rw [h, round_intCast]

/-- In exact arithmetic the maximum modifier is the integer
`100 + 20 * (level - 1) + 20 * rarity`: the rounding is exact. -/
theorem modi_max_eq (level rarity : ℤ) :
    modi_max level rarity = 100 + 20 * (level - 1) + 20 * rarity := by
  unfold modi_max
  have h : (1 + ((level : ℚ) - 1) / 5 + (rarity : ℚ) / 5) * 100
      = ((100 + 20 * (level - 1) + 20 * rarity : ℤ) : ℚ) := by
    push_cast; ring
  rw [h, round_intCast]

/-- A single `stat_modifier` application with a draw at or above the
minimum modifier never decreases a positive stat. -/
theorem stat_modifier_ge_core (m stat lv r : ℤ) (hs : 0 < stat) (hl : 1 ≤ lv)
    (hmin : modi_min lv ≤ m) : stat ≤ stat_modifier m stat lv r := by
  have hm : (100 : ℤ) ≤ m := by rw [modi_min_eq] at hmin; omega
  have h1 : (1 : ℚ) ≤ (m : ℚ) / 100 := by
    rw [le_div_iff₀ (by norm_num : (0:ℚ) < 100)]
    have : (100 : ℚ) ≤ (m : ℚ) := by exact_mod_cast hm
    linarith
  have h2 : (stat : ℚ) ≤ (stat : ℚ) * ((m : ℚ) / 100) :=
    le_mul_of_one_le_right (by exact_mod_cast hs.le) h1
  have h3 : (stat : ℚ) ≤ (⌈(stat : ℚ) * ((m : ℚ) / 100)⌉ : ℚ) :=
    le_trans h2 (Int.le_ceil _)
  unfold stat_modifier modifier_multiplier
  exact_mod_cast h3

/-- Each of the four stats produced by the interleaved four-stat loop is
the compounding iteration of `stat_modifier` on that stat alone, with
pass `k` consuming the draw at stream position `4k` (hp), `4k + 1`
(attack), `4k + 2` (speed), `4k + 3` (defense). -/
theorem mod_iter_stats (lv r : ℤ) : ∀ (k : ℕ) (draws : ℕ → ℤ) (e : Entity),
    (mod_iter draws lv r k e).base_hp
        = compound (fun i => draws (4 * i)) lv r k e.base_hp ∧
    (mod_iter draws lv r k e).base_attack
        = compound (fun i => draws (4 * i + 1)) lv r k e.base_attack ∧
    (mod_iter draws lv r k e).base_speed
        = compound (fun i => draws (4 * i + 2)) lv r k e.base_speed ∧
    (mod_iter draws lv r k e).base_defense
        = compound (fun i => draws (4 * i + 3)) lv r k e.base_defense := by
  intro k
  induction k with
  | zero => intro draws e; exact ⟨rfl, rfl, rfl, rfl⟩
  | succ k ih =>
    intro draws e
    have h := ih (fun i => draws (i + 4))
      (mod_pass (draws 0) (draws 1) (draws 2) (draws 3) lv r e)
    simp only [mod_iter, compound, mod_pass] at h ⊢
    exact h

/-- The four-stat loop keeps positive stats positive and never decreases
them, as long as every draw is at or above the minimum modifier. -/
theorem mod_iter_mono (lv r : ℤ) (hl : 1 ≤ lv) :
    ∀ (k : ℕ) (draws : ℕ → ℤ) (e : Entity),
    (∀ i, modi_min lv ≤ draws i) →
    0 < e.base_hp → 0 < e.base_attack → 0 < e.base_defense → 0 < e.base_speed →
    (e.base_hp ≤ (mod_iter draws lv r k e).base_hp ∧
        0 < (mod_iter draws lv r k e).base_hp) ∧
    (e.base_attack ≤ (mod_iter draws lv r k e).base_attack ∧
        0 < (mod_iter draws lv r k e).base_attack) ∧
    (e.base_defense ≤ (mod_iter draws lv r k e).base_defense ∧
        0 < (mod_iter draws lv r k e).base_defense) ∧
    (e.base_speed ≤ (mod_iter draws lv r k e).base_speed ∧
        0 < (mod_iter draws lv r k e).base_speed) := by
  intro k
  induction k with
  | zero =>
    intro draws e hd h1 h2 h3 h4
    exact ⟨⟨le_refl _, h1⟩, ⟨le_refl _, h2⟩, ⟨le_refl _, h3⟩, ⟨le_refl _, h4⟩⟩
  | succ k ih =>
    intro draws e hd h1 h2 h3 h4
    have s1 := stat_modifier_ge_core (draws 0) e.base_hp lv r h1 hl (hd 0)
    have s2 := stat_modifier_ge_core (draws 1) e.base_attack lv r h2 hl (hd 1)
    have s3 := stat_modifier_ge_core (draws 3) e.base_defense lv r h3 hl (hd 3)
    have s4 := stat_modifier_ge_core (draws 2) e.base_speed lv r h4 hl (hd 2)
    have h := ih (fun i => draws (i + 4))
      (mod_pass (draws 0) (draws 1) (draws 2) (draws 3) lv r e)
      (fun i => hd (i + 4))
      (by simpa [mod_pass] using lt_of_lt_of_le h1 s1)
      (by simpa [mod_pass] using lt_of_lt_of_le h2 s2)
      (by simpa [mod_pass] using lt_of_lt_of_le h3 s3)
      (by simpa [mod_pass] using lt_of_lt_of_le h4 s4)
    simp only [mod_iter, mod_pass] at h ⊢
    exact ⟨⟨le_trans s1 h.1.1, h.1.2⟩, ⟨le_trans s2 h.2.1.1, h.2.1.2⟩,
      ⟨le_trans s3 h.2.2.1.1, h.2.2.1.2⟩, ⟨le_trans s4 h.2.2.2.1, h.2.2.2.2⟩⟩

/-- Bounds on `rarity_recursive` relative to the starting accumulator,
by induction on a fuel bound for the recursion depth. -/
theorem rarity_bounds_aux : ∀ (fuel : ℕ) (rolls : ℕ → ℤ) (n : ℤ) (t : ℕ),
    (n - 1).toNat ≤ fuel → t ≤ 5 →
    t ≤ rarity_recursive rolls n t ∧ rarity_recursive rolls n t ≤ 5 := by
  intro fuel
  induction fuel with
  | zero =>
    intro rolls n t hf ht
    rw [rarity_recursive]
    rw [dif_pos (Or.inl (by omega : (100:ℤ) ≤ 100 - (n - 1) * 20))]
    exact ⟨le_refl t, ht⟩
  | succ f ih =>
    intro rolls n t hf ht
    rw [rarity_recursive]
    split_ifs with h1 h2
    · exact ⟨le_refl t, ht⟩
    · push_neg at h1
      have h5 : t + 1 ≤ 5 := by omega
      have := ih (fun i => rolls (i + 1)) (n - 1) (t + 1) (by omega) h5
      exact ⟨le_trans (Nat.le_succ t) this.1, this.2⟩
    · exact ⟨le_refl t, ht⟩

/-- Step-count bounds for the rarity recursion: at most `n - 1` recursive
calls, and at most `5 - t` once the accumulator is in range. -/
theorem rarity_steps_bounds_aux : ∀ (fuel : ℕ) (rolls : ℕ → ℤ) (n : ℤ) (t : ℕ),
    (n - 1).toNat ≤ fuel →
    rarity_steps rolls n t ≤ (n - 1).toNat ∧
    (1 ≤ t → t ≤ 5 → rarity_steps rolls n t ≤ 5 - t) := by
  intro fuel
  induction fuel with
  | zero =>
    intro rolls n t hf
    rw [rarity_steps]
    rw [dif_pos (Or.inl (by omega : (100:ℤ) ≤ 100 - (n - 1) * 20))]
    exact ⟨Nat.zero_le _, fun _ _ => Nat.zero_le _⟩
  | succ f ih =>
    intro rolls n t hf
    rw [rarity_steps]
    split_ifs with h1 h2
    · exact ⟨Nat.zero_le _, fun _ _ => Nat.zero_le _⟩
    · push_neg at h1
      have := ih (fun i => rolls (i + 1)) (n - 1) (t + 1) (by omega)
      constructor
      · omega
      · intro ht1 ht5
        have h5 : t + 1 ≤ 5 := by omega
        have := this.2 (by omega) h5
        omega
    · exact ⟨Nat.zero_le _, fun _ _ => Nat.zero_le _⟩

/-- Calls with `n ≤ 1` or with the accumulator already at the cap perform
no recursive step at all. -/
theorem rarity_steps_terminal (rolls : ℕ → ℤ) (n : ℤ) (t : ℕ)
    (h : n ≤ 1 ∨ t = 5) : rarity_steps rolls n t = 0 := by
  rw [rarity_steps]
  rcases h with h | h
  · rw [dif_pos (Or.inl (by omega : (100:ℤ) ≤ 100 - (n - 1) * 20))]
  · rw [dif_pos (Or.inr h)]

end ReactRPG

namespace ReactRPG

/-- C4: for every integer character level and every sequence of random
rolls, the rarity produced by `rarity_recursive` started with accumulator
`t = 1` lies between 1 and 5 inclusive — the cap of 5 holds even for
levels ≥ 6, where every roll reaches the threshold. -/
theorem rarity_recursive_result_bounds (rolls : ℕ → ℤ) (n : ℤ) :
    1 ≤ rarity_recursive rolls n 1 ∧ rarity_recursive rolls n 1 ≤ 5 :=
  rarity_bounds_aux (n - 1).toNat rolls n 1 le_rfl (by norm_num)

/-- C8: at level 1 the success threshold is 100, which is immediately
terminal, so `rarity_recursive 1 t = t` for every accumulator and every
roll stream. -/
theorem rarity_recursive_level_one (rolls : ℕ → ℤ) (t : ℕ) :
    rarity_recursive rolls 1 t = t := by
  rw [rarity_recursive, dif_pos (Or.inl (by norm_num))]

/-- C9: the rarity recursion is bounded: it performs at most `n - 1`
recursive steps for any accumulator (hence terminates even for `n ≤ 0`,
where it performs none), at most 4 steps from the starting accumulator 1,
and zero steps whenever `n ≤ 1` or the accumulator is already 5. -/
theorem rarity_recursive_terminates (rolls : ℕ → ℤ) (n : ℤ) (t : ℕ) :
    rarity_steps rolls n t ≤ (n - 1).toNat ∧
    rarity_steps rolls n 1 ≤ 4 ∧
    ((n ≤ 1 ∨ t = 5) → rarity_steps rolls n t = 0) := by
  refine ⟨(rarity_steps_bounds_aux (n - 1).toNat rolls n t le_rfl).1, ?_,
    rarity_steps_terminal rolls n t⟩
  have := (rarity_steps_bounds_aux (n - 1).toNat rolls n 1 le_rfl).2
    le_rfl (by norm_num)
  omega

theorem rarity_recursive_terminates_witness :
    rarity_steps (fun _ => 100) 10 5 = 0 :=
  (rarity_recursive_terminates (fun _ => 100) 10 5).2.2 (Or.inr rfl)

/-- C5: for level ≥ 1 and rarity ≥ 1, every draw of
`randrange(modi_min, modi_max)` puts the returned multiplier in the
closed interval from `modi_min / 100` to `(modi_max - 1) / 100`. -/
theorem modifier_multiplier_range (level rarity m : ℤ)
    (hl : 1 ≤ level) (hr : 1 ≤ rarity)
    (hmin : modi_min level ≤ m) (hmax : m < modi_max level rarity) :
    (modi_min level : ℚ) / 100 ≤ modifier_multiplier m level rarity ∧
    modifier_multiplier m level rarity
      ≤ ((modi_max level rarity : ℚ) - 1) / 100 := by
  unfold modifier_multiplier
  constructor
  · have : (modi_min level : ℚ) ≤ (m : ℚ) := by exact_mod_cast hmin
    gcongr
  · have : (m : ℚ) ≤ (modi_max level rarity : ℚ) - 1 := by
      have : m ≤ modi_max level rarity - 1 := by omega
      exact_mod_cast this
    gcongr

theorem modifier_multiplier_range_witness :
    (modi_min 2 : ℚ) / 100 ≤ modifier_multiplier 125 2 1 ∧
    modifier_multiplier 125 2 1 ≤ ((modi_max 2 1 : ℚ) - 1) / 100 :=
  modifier_multiplier_range 2 1 125 (by norm_num) (by norm_num)
    (by norm_num [modi_min, round_eq]) (by norm_num [modi_max, round_eq])

end ReactRPG

namespace ReactRPG

/-- C6: with any draw at or above `modi_min` the modified stat is at least
the input stat and stays positive; consequently all four stats of an
entity run through the scaling loop any number of times remain positive
and at least the template's base stats. -/
theorem stat_modifier_ge (stat level rarity m : ℤ) (k : ℕ) (draws : ℕ → ℤ)
    (e : Entity)
    (hs : 0 < stat) (hl : 1 ≤ level) (hr : 1 ≤ rarity)
    (hmin : modi_min level ≤ m) (hmax : m < modi_max level rarity)
    (hd : ∀ i, modi_min level ≤ draws i ∧ draws i < modi_max level rarity)
    (hhp : 0 < e.base_hp) (hat : 0 < e.base_attack)
    (hdf : 0 < e.base_defense) (hsp : 0 < e.base_speed) :
    (stat ≤ stat_modifier m stat level rarity ∧
     0 < stat_modifier m stat level rarity) ∧
    (e.base_hp ≤ (mod_iter draws level rarity k e).base_hp ∧
     e.base_attack ≤ (mod_iter draws level rarity k e).base_attack ∧
     e.base_defense ≤ (mod_iter draws level rarity k e).base_defense ∧
     e.base_speed ≤ (mod_iter draws level rarity k e).base_speed) ∧
    (0 < (mod_iter draws level rarity k e).base_hp ∧
     0 < (mod_iter draws level rarity k e).base_attack ∧
     0 < (mod_iter draws level rarity k e).base_defense ∧
     0 < (mod_iter draws level rarity k e).base_speed) := by
  have hcore := stat_modifier_ge_core m stat level rarity hs hl hmin
  have hm := mod_iter_mono level rarity hl k draws e (fun i => (hd i).1)
    hhp hat hdf hsp
  exact ⟨⟨hcore, lt_of_lt_of_le hs hcore⟩,
    ⟨hm.1.1, hm.2.1.1, hm.2.2.1.1, hm.2.2.2.1⟩,
    ⟨hm.1.2, hm.2.1.2, hm.2.2.1.2, hm.2.2.2.2⟩⟩

theorem stat_modifier_ge_witness :
    (5 ≤ stat_modifier 101 5 1 1 ∧ 0 < stat_modifier 101 5 1 1) ∧
    (sampleTemplate.base_hp
        ≤ (mod_iter (fun _ => 101) 1 1 1 sampleTemplate).base_hp ∧
     sampleTemplate.base_attack
        ≤ (mod_iter (fun _ => 101) 1 1 1 sampleTemplate).base_attack ∧
     sampleTemplate.base_defense
        ≤ (mod_iter (fun _ => 101) 1 1 1 sampleTemplate).base_defense ∧
     sampleTemplate.base_speed
        ≤ (mod_iter (fun _ => 101) 1 1 1 sampleTemplate).base_speed) ∧
    (0 < (mod_iter (fun _ => 101) 1 1 1 sampleTemplate).base_hp ∧
     0 < (mod_iter (fun _ => 101) 1 1 1 sampleTemplate).base_attack ∧
     0 < (mod_iter (fun _ => 101) 1 1 1 sampleTemplate).base_defense ∧
     0 < (mod_iter (fun _ => 101) 1 1 1 sampleTemplate).base_speed) :=
  stat_modifier_ge 5 1 1 101 1 (fun _ => 101) sampleTemplate
    (by norm_num) (by norm_num) (by norm_num)
    (by norm_num [modi_min, round_eq]) (by norm_num [modi_max, round_eq])
    (fun i => ⟨by norm_num [modi_min, round_eq], by norm_num [modi_max, round_eq]⟩)
    (by norm_num [sampleTemplate]) (by norm_num [sampleTemplate])
    (by norm_num [sampleTemplate]) (by norm_num [sampleTemplate])

/-- C10: the multiplier bounds are the exact integers
`modi_min = 100 + 20 (level - 1)` and `modi_max = modi_min + 20 rarity`,
so for rarity ≥ 1 the `randrange` range is never empty — and `new_weapon`
at requested level 1 does reach `stat_modifier` at level 1, rarity 1. -/
theorem modifier_bounds_nonempty (level rarity : ℤ) (t : Entity)
    (roll : ℤ) (rolls draws : ℕ → ℤ)
    (hl : 1 ≤ level) (hr : 1 ≤ rarity) :
    modi_min level = 100 + 20 * (level - 1) ∧
    modi_max level rarity = modi_min level + 20 * rarity ∧
    modi_min level < modi_max level rarity ∧
    (new_weapon t 1 roll rolls draws).base_hp
      = stat_modifier (draws 0) t.base_hp 1 1 := by
  have h1 := modi_min_eq level
  have h2 := modi_max_eq level rarity
  refine ⟨h1, by omega, by omega, rfl⟩

theorem modifier_bounds_nonempty_witness :
    modi_min 1 = 100 + 20 * (1 - 1) ∧
    modi_max 1 1 = modi_min 1 + 20 * 1 ∧
    modi_min 1 < modi_max 1 1 ∧
    (new_weapon sampleTemplate 1 1 (fun _ => 1) (fun _ => 101)).base_hp
      = stat_modifier 101 sampleTemplate.base_hp 1 1 :=
  modifier_bounds_nonempty 1 1 sampleTemplate 1 (fun _ => 1) (fun _ => 101)
    (by norm_num) (by norm_num)

end ReactRPG

namespace ReactRPG

/-- C1 counterexample: on an empty database the filtered candidate set is
empty and `get_random` fails with the ValueError that `randint(0, -1)`
raises, not with the NotFound error kind the claim requires. -/
theorem get_random_empty_not_notFound :
    get_random [] "Weapon" false 1 0 = Except.error GenError.valueError ∧
    get_random [] "Weapon" false 1 0 ≠ Except.error GenError.notFound := by
  refine ⟨rfl, fun h => ?_⟩
  exact absurd (Except.error.inj h) (by decide)

/-- C1 amended: whenever the filtered candidate set is empty, `get_random`
crashes with a ValueError (raised by `randint(0, -1)`); it returns neither
a NotFound error nor any entity. -/
theorem get_random_empty_raises (db : List Entity) (ct : String) (paid : Bool)
    (level : ℤ) (idx : ℕ) (h : codex_query db ct paid level = []) :
    get_random db ct paid level idx = Except.error GenError.valueError ∧
    get_random db ct paid level idx ≠ Except.error GenError.notFound ∧
    ∀ e, get_random db ct paid level idx ≠ Except.ok e := by
  have hmain : get_random db ct paid level idx
      = Except.error GenError.valueError := by
    unfold get_random
    rw [h]
    norm_num
  refine ⟨hmain, ?_, ?_⟩
  · rw [hmain]
    intro hco
    exact absurd (Except.error.inj hco) (by decide)
  · intro e hco
    rw [hmain] at hco
    exact Except.noConfusion hco

theorem get_random_empty_raises_witness :
    get_random [{ name := "Rat", type := "Enemy" }] "Weapon" false 1 0
      = Except.error GenError.valueError :=
  (get_random_empty_raises [{ name := "Rat", type := "Enemy" }] "Weapon"
    false 1 0 (by decide)).1

/-- C2 counterexample: a requested level of 1 does not leave weapon stats
at the template's base values — with stat draw 101 the sample template's
base hp 5 becomes 6, because `new_weapon` still runs one scaling pass. -/
theorem new_weapon_level_one_scales :
    sampleTemplate.base_hp = 5 ∧
    (new_weapon sampleTemplate 1 1 (fun _ => 1) (fun _ => 101)).base_hp = 6 := by
  refine ⟨rfl, ?_⟩
  norm_num [new_weapon, weapon_level, weapon_rarity, mod_iter, mod_pass,
    stat_modifier, modifier_multiplier, sampleTemplate, Int.ceil_eq_iff]

/-- C2 amended: at requested level 1 `new_enemy` returns the template's
four stats unchanged, while `new_weapon` performs exactly one
`stat_modifier` pass at level 1, rarity 1 (so its stats equal the base
stats only when every draw is exactly 100). -/
theorem level_one_generation (t : Entity) (roll : ℤ)
    (rolls draws edraws : ℕ → ℤ) :
    ((new_enemy t 1 roll edraws).base_hp = t.base_hp ∧
     (new_enemy t 1 roll edraws).base_attack = t.base_attack ∧
     (new_enemy t 1 roll edraws).base_defense = t.base_defense ∧
     (new_enemy t 1 roll edraws).base_speed = t.base_speed) ∧
    new_weapon t 1 roll rolls draws
      = mod_pass (draws 0) (draws 1) (draws 2) (draws 3) 1 1
          { t with level := 1, rarity := 1, rarity_text := "Common" } :=
  ⟨⟨rfl, rfl, rfl, rfl⟩, rfl⟩

/-- C3 counterexample: at level 1, rarity 1 the bounds are 100 and 120 —
not the degenerate empty range the claim asserts — and `new_weapon` at
requested level 1 does invoke the multiplier at (1, 1): the draw 101
changes the sample template's attack stat. -/
theorem level_one_rarity_one_bounds :
    modi_min 1 = 100 ∧ modi_max 1 1 = 120 ∧ modi_min 1 < modi_max 1 1 ∧
    (new_weapon sampleTemplate 1 1 (fun _ => 1) (fun _ => 101)).base_attack
      ≠ sampleTemplate.base_attack := by
  refine ⟨by norm_num [modi_min, round_eq], by norm_num [modi_max, round_eq],
    by norm_num [modi_min, modi_max, round_eq], ?_⟩
  norm_num [new_weapon, weapon_level, weapon_rarity, mod_iter, mod_pass,
    stat_modifier, modifier_multiplier, sampleTemplate, Int.ceil_eq_iff]

/-- C3 amended: at level 1, rarity 1 the multiplier range is the nonempty
interval from 100 to 120, every draw in it yields a multiplier in
[1, 119/100], and `new_weapon` does invoke `stat_modifier` at (1, 1): its
scaling loop runs `rarity = 1` time even at level 1. -/
theorem level_one_rarity_one_nonempty (m roll : ℤ) (t : Entity)
    (rolls draws : ℕ → ℤ)
    (hmin : modi_min 1 ≤ m) (hmax : m < modi_max 1 1) :
    modi_min 1 = 100 ∧ modi_max 1 1 = 120 ∧
    (1 : ℚ) ≤ modifier_multiplier m 1 1 ∧
    modifier_multiplier m 1 1 ≤ (119 : ℚ) / 100 ∧
    (new_weapon t 1 roll rolls draws).base_defense
      = stat_modifier (draws 3) t.base_defense 1 1 := by
  have h1 : modi_min 1 = 100 := by norm_num [modi_min, round_eq]
  have h2 : modi_max 1 1 = 120 := by norm_num [modi_max, round_eq]
  rw [h1] at hmin
  rw [h2] at hmax
  refine ⟨h1, h2, ?_, ?_, rfl⟩
  · unfold modifier_multiplier
    rw [le_div_iff₀ (by norm_num : (0:ℚ) < 100)]
    have : (100 : ℚ) ≤ (m : ℚ) := by exact_mod_cast hmin
    linarith
  · unfold modifier_multiplier
    have : (m : ℚ) ≤ 119 := by exact_mod_cast (by omega : m ≤ 119)
    gcongr

theorem level_one_rarity_one_nonempty_witness :
    modi_min 1 = 100 ∧ modi_max 1 1 = 120 ∧
    (1 : ℚ) ≤ modifier_multiplier 110 1 1 ∧
    modifier_multiplier 110 1 1 ≤ (119 : ℚ) / 100 ∧
    (new_weapon sampleTemplate 1 1 (fun _ => 1) (fun _ => 101)).base_defense
      = stat_modifier 101 sampleTemplate.base_defense 1 1 :=
  level_one_rarity_one_nonempty 110 1 sampleTemplate (fun _ => 1)
    (fun _ => 101) (by norm_num [modi_min, round_eq])
    (by norm_num [modi_max, round_eq])

/-- C7: each stat of a generated weapon is the compounding application of
`stat_modifier` exactly `rarity` times at the resolved level and rarity;
each stat of a generated enemy is the compounding application exactly
`level - 1` times at the resolved level with rarity at its default 1; and
at requested level 1 an enemy is returned without any modification. -/
theorem generation_compounds (t : Entity) (level levelRoll : ℤ)
    (rarityRolls draws edraws : ℕ → ℤ) :
    ((new_weapon t level levelRoll rarityRolls draws).base_hp
        = compound (fun i => draws (4 * i)) (weapon_level levelRoll level)
            (weapon_rarity rarityRolls levelRoll level)
            (weapon_rarity rarityRolls levelRoll level) t.base_hp ∧
     (new_weapon t level levelRoll rarityRolls draws).base_attack
        = compound (fun i => draws (4 * i + 1)) (weapon_level levelRoll level)
            (weapon_rarity rarityRolls levelRoll level)
            (weapon_rarity rarityRolls levelRoll level) t.base_attack ∧
     (new_weapon t level levelRoll rarityRolls draws).base_speed
        = compound (fun i => draws (4 * i + 2)) (weapon_level levelRoll level)
            (weapon_rarity rarityRolls levelRoll level)
            (weapon_rarity rarityRolls levelRoll level) t.base_speed ∧
     (new_weapon t level levelRoll rarityRolls draws).base_defense
        = compound (fun i => draws (4 * i + 3)) (weapon_level levelRoll level)
            (weapon_rarity rarityRolls levelRoll level)
            (weapon_rarity rarityRolls levelRoll level) t.base_defense) ∧
    ((new_enemy t level levelRoll edraws).base_hp
        = compound (fun i => edraws (4 * i)) (enemy_level levelRoll level) 1
            ((enemy_level levelRoll level) - 1).toNat t.base_hp ∧
     (new_enemy t level levelRoll edraws).base_attack
        = compound (fun i => edraws (4 * i + 1)) (enemy_level levelRoll level) 1
            ((enemy_level levelRoll level) - 1).toNat t.base_attack ∧
     (new_enemy t level levelRoll edraws).base_speed
        = compound (fun i => edraws (4 * i + 2)) (enemy_level levelRoll level) 1
            ((enemy_level levelRoll level) - 1).toNat t.base_speed ∧
     (new_enemy t level levelRoll edraws).base_defense
        = compound (fun i => edraws (4 * i + 3)) (enemy_level levelRoll level) 1
            ((enemy_level levelRoll level) - 1).toNat t.base_defense) ∧
    (level = 1 → new_enemy t level levelRoll edraws = { t with level := 1 }) := by
  refine ⟨?_, ?_, ?_⟩
  · have h := mod_iter_stats (weapon_level levelRoll level)
      (weapon_rarity rarityRolls levelRoll level)
      (weapon_rarity rarityRolls levelRoll level) draws
      { t with
        level := weapon_level levelRoll level
        rarity := weapon_rarity rarityRolls levelRoll level
        rarity_text :=
          rarity_list.getD (weapon_rarity rarityRolls levelRoll level - 1) "" }
    exact h
  · by_cases hl : 1 < level
    · have h := mod_iter_stats (enemy_level levelRoll level) 1
        ((enemy_level levelRoll level) - 1).toNat edraws
        { t with level := enemy_level levelRoll level }
      simp only [new_enemy, if_pos hl]
      exact h
    · simp [new_enemy, if_neg hl, enemy_level, compound]
  · intro h1
    subst h1
    simp only [new_enemy]
    split_ifs with hc
    · exact absurd hc (by norm_num)
    · rfl

theorem generation_compounds_witness :
    new_enemy sampleTemplate 1 1 (fun _ => 101)
      = { sampleTemplate with level := 1 } :=
  (generation_compounds sampleTemplate 1 1 (fun _ => 1) (fun _ => 1)
    (fun _ => 101)).2.2 rfl

end ReactRPG
